import Mathlib

/-!
Verification of the Prevora surveillance-dashboard aggregation engine.

The TypeScript source is shallowly embedded: each aggregation function is
translated into a Lean function over explicit record types.  Timestamps are
modelled by integer projections of the `created_at` string (`day`: the UTC
calendar-day index compared by the `startsWith(dateStr)` prefix test;
`hour`: the local hour-of-day returned by `getHours()`; `ts`: the epoch
milliseconds returned by `getTime()`).  JavaScript number division is
modelled by `jsDiv`, which returns `none` when the denominator is zero: in
every call site of this code base the numerator is also zero there, so the
JavaScript result is `NaN` (`0/0`), a non-number.  `Math.round` is
`jsRound` (round half toward positive infinity), `Math.min` is `jsMin`.
Calls to `Math.random` are modelled as oracle parameters supplied by the
caller, so the functions stay deterministic.
-/

/-- JavaScript division restricted to this code base: `none` models the
non-number result (`NaN`) produced when the denominator is `0` (the
numerator is `0` at every such call site here). -/
def jsDiv (a b : ℚ) : Option ℚ :=
  if b = 0 then none else some (a / b)

/-- The source `Math.round`: round half toward positive infinity. -/
def jsRound (q : ℚ) : ℤ :=
  ⌊q + 1 / 2⌋

/-- The source `Math.min` on two numbers (neither argument is `NaN` at any call site
here). -/
def jsMin (a b : ℚ) : ℚ :=
  if a ≤ b then a else b

/-- The closed severity enumeration `'low' | 'medium' | 'high'`. -/
inductive Severity where
  | low
  | medium
  | high
deriving DecidableEq

/-- A signal record as read from the store.  `day`, `hour` and `ts` are the
three timestamp projections of `created_at` described in the header. -/
structure Signal where
  id : String
  type : String
  location : String
  severity : Severity
  day : ℤ
  hour : Fin 24
  ts : ℤ
deriving DecidableEq

/-- An event record as read from the store. -/
structure Event where
  id : String
  title : String
  location : String
  severity : Severity
  signal_count : ℕ
  status : String
  created_at : ℤ
deriving DecidableEq

/-- An alert record as read from the store. -/
structure Alert where
  id : String
  title : String
  location : String
  severity : Severity
  issued_at : ℤ
deriving DecidableEq

/-- One row of the severity-distribution table. -/
structure SeverityBucket where
  severity : String
  count : ℕ
  color : String
deriving DecidableEq

/-- The table `severityDistribution` from `AdvancedAnalytics.loadAnalyticsData`:
high/medium/low counts with their chart colors, in that order. -/
def severityDistribution (signals : List Signal) : List SeverityBucket :=
  [ ⟨"High", (signals.filter (fun s => s.severity = Severity.high)).length, "#ef4444"⟩,
    ⟨"Medium", (signals.filter (fun s => s.severity = Severity.medium)).length, "#f59e0b"⟩,
    ⟨"Low", (signals.filter (fun s => s.severity = Severity.low)).length, "#10b981"⟩ ]

/-- The expression `signal.location.split(',')[0]`: the first comma-delimited segment. -/
def primaryRegion (loc : String) : String :=
  (loc.splitOn ",").headD ""

/-- The key sequence of a JavaScript object built by repeated
`obj[k] = (obj[k] || 0) + 1`: each key appears once, in first-seen order.
(For the region and type names used here no key is array-index-like, so
JavaScript insertion order applies.) -/
def firstSeenKeys (keys : List String) : List String :=
  keys.foldl (fun acc k => if k ∈ acc then acc else acc ++ [k]) []

/-- One ranked hotspot row. -/
structure Hotspot where
  location : String
  count : ℕ
  risk : String
deriving DecidableEq

/-- The risk-tier conditional `count > 10 ? 'high' : count > 5 ? 'medium' : 'low'`. -/
def hotspotRisk (count : ℕ) : String :=
  if count > 10 then "high" else if count > 5 then "medium" else "low"

/-- The ranking `locationHotspots` from `AdvancedAnalytics.loadAnalyticsData`: group by
primary region, count, attach the tier, sort descending by count, keep the
first 10.  JavaScript `sort` with comparator `(a, b) => b.count - a.count`
is a stable sort for the total preorder `b.count ≤ a.count`; a stable sort
for a total preorder has a unique output, so it is modelled by the stable
`List.insertionSort`. -/
def locationHotspots (signals : List Signal) : List Hotspot :=
  let keys := firstSeenKeys (signals.map (fun s => primaryRegion s.location))
  ((keys.map (fun k =>
      let c := (signals.filter (fun s => primaryRegion s.location = k)).length
      Hotspot.mk k c (hotspotRisk c))).insertionSort
    (fun a b => b.count ≤ a.count)).take 10

/-- One row of the signal-type breakdown.  `percentage` is `none` when the
JavaScript computation produces `NaN`. -/
structure TypeShare where
  type : String
  count : ℕ
  percentage : Option ℤ
deriving DecidableEq

/-- The breakdown `typeBreakdown` from `AdvancedAnalytics.loadAnalyticsData`: group by
`type`, compute `Math.round(count / signals.length * 100)`, sort descending
by count. -/
def typeBreakdown (signals : List Signal) : List TypeShare :=
  let keys := firstSeenKeys (signals.map (fun s => s.type))
  (keys.map (fun t =>
      let c := (signals.filter (fun s => s.type = t)).length
      TypeShare.mk t c
        ((jsDiv (c : ℚ) (signals.length : ℚ)).map (fun q => jsRound (q * 100))))).insertionSort
    (fun a b => b.count ≤ a.count)

/-- The `'HH:00'` hour label built with `padStart(2, '0')`. -/
def hourLabel (h : ℕ) : String :=
  (if h < 10 then "0" ++ toString h else toString h) ++ ":00"

/-- One hour-of-day histogram entry.  `normalized` is `none` when the
JavaScript computation produces `NaN`. -/
structure TimeBucket where
  hour : String
  signals : ℕ
  normalized : Option ℚ
deriving DecidableEq

/-- The function `generateTimePatterns`: a 24-slot hour-of-day histogram, each slot
normalized to the busiest slot by `count / Math.max(...hourCounts) * 100`. -/
def generateTimePatterns (signals : List Signal) : List TimeBucket :=
  let hourCounts := (List.range 24).map
    (fun h => (signals.filter (fun s => s.hour.val = h)).length)
  let maxCount := hourCounts.foldr max 0
  (List.range 24).map (fun h =>
    let c := (signals.filter (fun s => s.hour.val = h)).length
    TimeBucket.mk (hourLabel h) c ((jsDiv (c : ℚ) (maxCount : ℚ)).map (fun q => q * 100)))

/-- One component of the risk radar.  `value` is `none` when the JavaScript
computation produces `NaN`. -/
structure RiskFactor where
  factor : String
  value : Option ℚ
deriving DecidableEq

/-- The radar `riskAssessment` from `AdvancedAnalytics.loadAnalyticsData`: the six
factors, in source order.  The severity factor divides the high-severity
count (row 0 of `severityDistribution`) by the unguarded signal count. -/
def riskAssessment (signals : List Signal) (events : List Event) : List RiskFactor :=
  let locationKeys := firstSeenKeys (signals.map (fun s => primaryRegion s.location))
  [ ⟨"Signal Volume", some (jsMin 100 ((signals.length : ℚ) / 100 * 100))⟩,
    ⟨"Severity Level",
      ((jsDiv (((severityDistribution signals).headD ⟨"", 0, ""⟩).count : ℚ)
        (signals.length : ℚ)).map (fun q => q * 100))⟩,
    ⟨"Geographic Spread", some (jsMin 100 ((locationKeys.length : ℚ) * 10))⟩,
    ⟨"Event Frequency", some (jsMin 100 ((events.length : ℚ) * 5))⟩,
    ⟨"Response Time", some 85⟩,
    ⟨"Community Engagement", some 70⟩ ]

/-- One day bucket of the trend series.  `date` is the calendar-day index;
`anomaly` is the oracle value standing in for `Math.random() * 0.3 + 0.1`. -/
structure TrendBucket where
  date : ℤ
  signals : ℕ
  high : ℕ
  medium : ℕ
  low : ℕ
  anomaly : ℚ
deriving DecidableEq

/-- The window selector: `'7d' → 7`, `'30d' → 30`, anything else → 1. -/
def trendDays (range : String) : ℕ :=
  if range = "7d" then 7 else if range = "30d" then 30 else 1

/-- The function `generateSignalTrends`: for `i` from `days - 1` down to `0` emit the
bucket of calendar day `today - i` (so the output is ordered oldest to
newest) with its per-severity counts and the anomaly oracle value. -/
def generateSignalTrends (anomaly : ℤ → ℚ) (signals : List Signal)
    (range : String) (today : ℤ) : List TrendBucket :=
  let days := trendDays range
  (List.range days).map (fun j =>
    let i := days - 1 - j
    let d : ℤ := today - (i : ℤ)
    let daySignals := signals.filter (fun s => s.day = d)
    TrendBucket.mk d daySignals.length
      (daySignals.filter (fun s => s.severity = Severity.high)).length
      (daySignals.filter (fun s => s.severity = Severity.medium)).length
      (daySignals.filter (fun s => s.severity = Severity.low)).length
      (anomaly d))

/-- The derived-view record stored by `AdvancedAnalytics.setAnalyticsData`. -/
structure AnalyticsData where
  signalTrends : List TrendBucket
  severityDistribution : List SeverityBucket
  locationHotspots : List Hotspot
  typeBreakdown : List TypeShare
  timePatterns : List TimeBucket
  riskAssessment : List RiskFactor
deriving DecidableEq

/-- The component state touched by `AdvancedAnalytics.loadAnalyticsData`. -/
structure AnalyticsState where
  analyticsData : Option AnalyticsData
  isLoading : Bool
deriving DecidableEq

/-- The function `AdvancedAnalytics.loadAnalyticsData` as a state transition on the fetch
outcome.  On a fetch failure the `catch` block only logs; the `finally`
block clears `isLoading`, and no other field changes.  On success every
derived view is recomputed and replaced wholesale. -/
def loadAnalyticsData (anomaly : ℤ → ℚ)
    (fetch : Except Unit (List Signal × List Event)) (range : String)
    (today : ℤ) (st : AnalyticsState) : AnalyticsState :=
  match fetch with
  | .error _ => { st with isLoading := false }
  | .ok (signals, events) =>
    { analyticsData := some
        { signalTrends := generateSignalTrends anomaly signals range today
          severityDistribution := severityDistribution signals
          locationHotspots := locationHotspots signals
          typeBreakdown := typeBreakdown signals
          timePatterns := generateTimePatterns signals
          riskAssessment := riskAssessment signals events }
      isLoading := false }

/-- A merged notification.  `ntype` is the source field `type`
(`'alert' | 'event' | 'system'`). -/
structure Notification where
  id : String
  ntype : String
  title : String
  message : String
  severity : Severity
  timestamp : ℤ
  read : Bool
  actionUrl : Option String
deriving DecidableEq

/-- An alert mapped to a notification in `NotificationCenter.loadNotifications`. -/
def alertNotification (a : Alert) : Notification :=
  { id := "alert-" ++ a.id
    ntype := "alert"
    title := a.title
    message := "Health alert issued for " ++ a.location
    severity := a.severity
    timestamp := a.issued_at
    read := false
    actionUrl := some "/alerts" }

/-- An active event mapped to a notification in
`NotificationCenter.loadNotifications`. -/
def eventNotification (e : Event) : Notification :=
  { id := "event-" ++ e.id
    ntype := "event"
    title := e.title
    message := toString e.signal_count ++ " signals detected in " ++ e.location
    severity := e.severity
    timestamp := e.created_at
    read := false
    actionUrl := some ("/event/" ++ e.id) }

/-- The static engine-generated system notice, dated two hours before the
merge (`Date.now() - 2 * 60 * 60 * 1000`). -/
def systemNotifications (now : ℤ) : List Notification :=
  [ { id := "system-1"
      ntype := "system"
      title := "AI Model Updated"
      message := "Detection algorithms have been improved for better accuracy"
      severity := Severity.low
      timestamp := now - 2 * 60 * 60 * 1000
      read := false
      actionUrl := none } ]

/-- The merged collection `[...alertNotifications, ...eventNotifications,
...systemNotifications]` before sorting and truncation: all alerts, the
events whose `status` is `'active'`, and the system notices. -/
def allNotifications (alerts : List Alert) (events : List Event) (now : ℤ) :
    List Notification :=
  alerts.map alertNotification ++
    ((events.filter (fun e => e.status = "active")).map eventNotification) ++
    systemNotifications now

/-- The function `NotificationCenter.loadNotifications`: merge, sort descending by
timestamp (the stable JavaScript sort with comparator
`(a, b) => dateOf b - dateOf a`, modelled by the stable
`List.insertionSort`), and keep the first 20. -/
def loadNotifications (alerts : List Alert) (events : List Event) (now : ℤ) :
    List Notification :=
  ((allNotifications alerts events now).insertionSort
    (fun a b => b.timestamp ≤ a.timestamp)).take 20

/-- The derived `NotificationCenter.unreadCount`: the unread entries of the stored
(already truncated) notification list. -/
def unreadCount (notifications : List Notification) : ℕ :=
  (notifications.filter (fun n => n.read = false)).length

/-- One entry of the live-feed recency buffer.  `isNew` is `none` when the
optional field is absent (the initial load never sets it). -/
structure SignalUpdate where
  id : String
  type : String
  location : String
  severity : Severity
  timestamp : ℤ
  isNew : Option Bool
deriving DecidableEq

/-- The `SystemStatus` snapshot of `RealTimeMonitor`. -/
structure SystemStatus where
  isConnected : Bool
  lastUpdate : ℤ
  signalsPerMinute : ℕ
  systemHealth : String
deriving DecidableEq

/-- The `stats` record of `RealTimeMonitor`. -/
structure Stats where
  totalToday : ℕ
  highSeverity : ℕ
  activeEvents : ℕ
  avgResponseTime : String
deriving DecidableEq

/-- The component state of `RealTimeMonitor`. -/
structure MonitorState where
  recentSignals : List SignalUpdate
  systemStatus : SystemStatus
  stats : Stats
deriving DecidableEq

/-- The initial recency buffer: signals sorted most-recent-first by
`created_at` (stable sort, modelled by `List.insertionSort`), the first 10
kept and mapped to buffer entries without an `isNew` field. -/
def initialRecent (signals : List Signal) : List SignalUpdate :=
  ((signals.insertionSort (fun a b => b.ts ≤ a.ts)).take 10).map
    (fun s => SignalUpdate.mk s.id s.type s.location s.severity s.ts none)

/-- The function `RealTimeMonitor.loadInitialData` as a state transition on the fetch
outcome.  `todayDay` is the calendar day of the refresh, `now` the refresh
timestamp and `spm` the random signals-per-minute gauge
(`Math.floor(Math.random() * 5) + 1`) supplied as an oracle.  On failure
the buffer and stats are retained and the status flags turn
disconnected/critical. -/
def loadInitialData (fetch : Except Unit (List Signal × List Event))
    (todayDay : ℤ) (now : ℤ) (spm : ℕ) (st : MonitorState) : MonitorState :=
  match fetch with
  | .error _ =>
    { st with systemStatus :=
        { st.systemStatus with isConnected := false, systemHealth := "critical" } }
  | .ok (signals, events) =>
    { recentSignals := initialRecent signals
      stats :=
        { totalToday := (signals.filter (fun s => s.day = todayDay)).length
          highSeverity := (signals.filter (fun s => s.severity = Severity.high)).length
          activeEvents := (events.filter (fun e => e.status = "active")).length
          avgResponseTime := "2.3s" }
      systemStatus :=
        { st.systemStatus with lastUpdate := now, signalsPerMinute := spm } }

/-- The candidate type pool of the simulator. -/
def signalPoolType : Fin 4 → String
  | 0 => "Cough"
  | 1 => "Fever"
  | 2 => "Respiratory"
  | 3 => "Environmental"

/-- The candidate location pool of the simulator. -/
def signalPoolLocation : Fin 4 → String
  | 0 => "Mumbai, Andheri"
  | 1 => "Delhi, Central"
  | 2 => "Bangalore, Tech Park"
  | 3 => "Chennai, T Nagar"

/-- The candidate severity pool of the simulator. -/
def signalPoolSeverity : Fin 3 → Severity
  | 0 => Severity.low
  | 1 => Severity.medium
  | 2 => Severity.high

/-- The signal synthesized by a simulator tick from the three random pool
indices, tagged `isNew: true` and identified by the tick timestamp. -/
def synthSignal (now : ℤ) (rt rl : Fin 4) (rs : Fin 3) : SignalUpdate :=
  { id := "signal-" ++ toString now
    type := signalPoolType rt
    location := signalPoolLocation rl
    severity := signalPoolSeverity rs
    timestamp := now
    isNew := some true }

/-- The function `RealTimeMonitor.simulateRealTimeUpdate` as a state transition.
`synth` is `some (rt, rl, rs)` when the `Math.random() > 0.7` draw
succeeds (with the pool indices drawn), `none` otherwise.  `spm` and
`warn` are the random status-gauge oracles.  On a synthesis the new signal
is prepended to the first 9 previous buffer entries and the stats counters
are bumped; the status snapshot is refreshed on every tick. -/
def simulateRealTimeUpdate (synth : Option (Fin 4 × Fin 4 × Fin 3))
    (now : ℤ) (spm : ℕ) (warn : Bool) (st : MonitorState) : MonitorState :=
  let st1 :=
    match synth with
    | none => st
    | some (rt, rl, rs) =>
      let newSignal := synthSignal now rt rl rs
      { st with
          recentSignals := newSignal :: st.recentSignals.take 9
          stats :=
            { st.stats with
                totalToday := st.stats.totalToday + 1
                highSeverity :=
                  if newSignal.severity = Severity.high then
                    st.stats.highSeverity + 1
                  else st.stats.highSeverity } }
  { st1 with systemStatus :=
      { st1.systemStatus with
          lastUpdate := now
          signalsPerMinute := spm
          systemHealth := if warn then "warning" else "healthy" } }

/-- C1: on the empty signal collection the Severity Level factor is the
non-number `0 / 0` (`none`), not `0`, so the factor is neither `0` nor in
`[0, 100]`; the other five factors evaluate as listed.  This refutes the
guarded-division part of the claim at the concrete input
`signals = [], events = []`. -/
theorem riskAssessment_empty_severity_nan :
    riskAssessment [] [] =
      [ ⟨"Signal Volume", some 0⟩, ⟨"Severity Level", none⟩,
        ⟨"Geographic Spread", some 0⟩, ⟨"Event Frequency", some 0⟩,
        ⟨"Response Time", some 85⟩, ⟨"Community Engagement", some 70⟩ ] := by
  norm_num [riskAssessment, jsMin, jsDiv, severityDistribution, firstSeenKeys]

/-- C2: on the empty signal collection the bucketizer does produce 24
buckets with raw count 0, but every bucket's `normalized` value is the
non-number `0 / Math.max(...) = 0 / 0` (`none`), not `0`: the division by
the maximum bucket count is unguarded. -/
theorem generateTimePatterns_empty_normalized_nan :
    (generateTimePatterns []).length = 24 ∧
    (generateTimePatterns []).map (fun b => b.signals) = List.replicate 24 0 ∧
    (generateTimePatterns []).map (fun b => b.normalized) = List.replicate 24 none := by
  refine ⟨by decide, by decide, by decide⟩

/-- A concrete analytics state holding previously derived views, used to
exhibit a refresh failure that changes no status indicator. -/
def demoAnalyticsState : AnalyticsState :=
  loadAnalyticsData (fun _ => 0) (Except.ok ([], [])) "7d" 0 ⟨none, true⟩

/-- C8 counterexample: a failed analytics refresh leaves the component
state exactly as it was — the previous derived views are retained, but no
system-health flag exists in this component and nothing transitions to
critical/disconnected, so the failure is swallowed without any status
indicator changing. -/
theorem loadAnalyticsData_failure_swallowed :
    loadAnalyticsData (fun _ => 0) (Except.error ()) "7d" 0 demoAnalyticsState
      = demoAnalyticsState := rfl

/-- C8 (amended): a fetch failure in the real-time monitor retains the
buffer and stats and turns the status disconnected/critical, while a fetch
failure in the analytics refresh retains the previous derived views but
only clears the loading flag — it changes no health/connectivity status. -/
theorem fetch_failure_status (todayDay now : ℤ) (spm : ℕ) (st : MonitorState)
    (anomaly : ℤ → ℚ) (range : String) (today : ℤ) (ast : AnalyticsState) :
    (loadInitialData (Except.error ()) todayDay now spm st).recentSignals
        = st.recentSignals ∧
    (loadInitialData (Except.error ()) todayDay now spm st).stats = st.stats ∧
    (loadInitialData (Except.error ()) todayDay now spm st).systemStatus.isConnected
        = false ∧
    (loadInitialData (Except.error ()) todayDay now spm st).systemStatus.systemHealth
        = "critical" ∧
    (loadAnalyticsData anomaly (Except.error ()) range today ast).analyticsData
        = ast.analyticsData ∧
    (loadAnalyticsData anomaly (Except.error ()) range today ast).isLoading = false :=
  ⟨rfl, rfl, rfl, rfl, rfl, rfl⟩

/-- C9: the recency buffer is bounded by 10.  The initial load keeps at
most the 10 most recent signals (most-recent-first), and a synthesizing
tick prepends the new signal to at most the 9 retained previous entries,
evicting the tail, so the buffer never exceeds 10 entries. -/
theorem recencyBuffer_bounded (signals : List Signal) (st : MonitorState)
    (now : ℤ) (spm : ℕ) (warn : Bool) (rt rl : Fin 4) (rs : Fin 3) :
    (initialRecent signals).length ≤ 10 ∧
    List.Pairwise (fun a b : SignalUpdate => b.timestamp ≤ a.timestamp)
      (initialRecent signals) ∧
    (simulateRealTimeUpdate (some (rt, rl, rs)) now spm warn st).recentSignals
      = synthSignal now rt rl rs :: st.recentSignals.take 9 ∧
    (simulateRealTimeUpdate (some (rt, rl, rs)) now spm warn st).recentSignals.length
      ≤ 10 ∧
    (simulateRealTimeUpdate none now spm warn st).recentSignals = st.recentSignals := by
  haveI : IsTotal Signal (fun a b => b.ts ≤ a.ts) := ⟨fun a b => le_total b.ts a.ts⟩
  haveI : IsTrans Signal (fun a b => b.ts ≤ a.ts) := ⟨fun _ _ _ h h2 => h2.trans h⟩
  refine ⟨?_, ?_, rfl, ?_, rfl⟩
  · simp only [initialRecent, List.length_map]
    exact List.length_take_le 10 _
  · simp only [initialRecent, List.pairwise_map]
    exact List.Pairwise.sublist (List.take_sublist 10 _)
      (List.sorted_insertionSort _ signals)
  · have h : (st.recentSignals.take 9).length ≤ 9 := List.length_take_le 9 _
    simp only [simulateRealTimeUpdate, List.length_cons]
    omega

/-- C10: a synthesizing tick bumps `totalToday` by exactly 1 and bumps
`highSeverity` by 1 exactly when the synthesized severity is high, leaving
`activeEvents` and `avgResponseTime` unchanged; a tick without a synthesis
leaves the stats record and the recency buffer unchanged. -/
theorem tick_stats_frame (st : MonitorState) (now : ℤ) (spm : ℕ) (warn : Bool)
    (rt rl : Fin 4) (rs : Fin 3) :
    (simulateRealTimeUpdate (some (rt, rl, rs)) now spm warn st).stats.totalToday
      = st.stats.totalToday + 1 ∧
    (simulateRealTimeUpdate (some (rt, rl, rs)) now spm warn st).stats.highSeverity
      = (if signalPoolSeverity rs = Severity.high then st.stats.highSeverity + 1
         else st.stats.highSeverity) ∧
    (simulateRealTimeUpdate (some (rt, rl, rs)) now spm warn st).stats.activeEvents
      = st.stats.activeEvents ∧
    (simulateRealTimeUpdate (some (rt, rl, rs)) now spm warn st).stats.avgResponseTime
      = st.stats.avgResponseTime ∧
    (simulateRealTimeUpdate none now spm warn st).stats = st.stats ∧
    (simulateRealTimeUpdate none now spm warn st).recentSignals = st.recentSignals :=
  ⟨rfl, rfl, rfl, rfl, rfl, rfl⟩

/-- C4: the hotspot ranking keeps at most 10 groups, is non-increasing by
count, and assigns tiers by the exact thresholds `count > 10 → high`,
`5 < count ≤ 10 → medium`, else `low`; in particular count 10 is medium
and count 11 is high. -/
theorem locationHotspots_spec (signals : List Signal) :
    (locationHotspots signals).length ≤ 10 ∧
    List.Pairwise (fun a b : Hotspot => b.count ≤ a.count) (locationHotspots signals) ∧
    (locationHotspots signals).map (fun h => h.risk)
      = (locationHotspots signals).map (fun h =>
          if 10 < h.count then "high" else if 5 < h.count then "medium" else "low") ∧
    hotspotRisk 10 = "medium" ∧ hotspotRisk 11 = "high" := by
  haveI : IsTotal Hotspot (fun a b => b.count ≤ a.count) :=
    ⟨fun a b => le_total b.count a.count⟩
  haveI : IsTrans Hotspot (fun a b => b.count ≤ a.count) :=
    ⟨fun _ _ _ h h2 => h2.trans h⟩
  refine ⟨?_, ?_, ?_, by decide, by decide⟩
  · exact List.length_take_le 10 _
  · exact List.Pairwise.sublist (List.take_sublist 10 _)
      (List.sorted_insertionSort _ _)
  · apply List.map_congr_left
    intro h hm
    simp only [locationHotspots] at hm
    have hmem := (List.mem_insertionSort _).mp ((List.take_sublist 10 _).subset hm)
    rcases List.mem_map.mp hmem with ⟨k, _, rfl⟩
    rfl

/-- C5: every type group carries
`percentage = Math.round(count / totalSignals * 100)` when there is at
least one signal; with zero signals there are no groups at all (the output
is empty), so every group of the output vacuously has percentage 0 and no
division ever produces a non-number (`percentage` is always `some`). -/
theorem typeBreakdown_spec (signals : List Signal) :
    (signals.length = 0 → typeBreakdown signals = []) ∧
    (typeBreakdown signals).map (fun e => e.percentage)
      = (typeBreakdown signals).map (fun e =>
          if signals.length = 0 then some 0
          else some (jsRound ((e.count : ℚ) / (signals.length : ℚ) * 100))) ∧
    (typeBreakdown signals).all (fun e => e.percentage.isSome) = true := by
  have hempty : signals.length = 0 → typeBreakdown signals = [] := by
    intro h
    rw [List.length_eq_zero] at h
    subst h
    rfl
  refine ⟨hempty, ?_, ?_⟩
  · by_cases hlen : signals.length = 0
    · rw [hempty hlen]
      simp
    · apply List.map_congr_left
      intro e he
      simp only [typeBreakdown] at he
      have hmem := (List.mem_insertionSort _).mp he
      rcases List.mem_map.mp hmem with ⟨t, _, rfl⟩
      have hne : ((signals.length : ℚ)) ≠ 0 := Nat.cast_ne_zero.mpr hlen
      simp [jsDiv, hne, hlen]
  · rw [List.all_eq_true]
    intro e he
    by_cases hlen : signals.length = 0
    · rw [hempty hlen] at he
      cases he
    · simp only [typeBreakdown] at he
      have hmem := (List.mem_insertionSort _).mp he
      rcases List.mem_map.mp hmem with ⟨t, _, rfl⟩
      have hne : ((signals.length : ℚ)) ≠ 0 := Nat.cast_ne_zero.mpr hlen
      simp [jsDiv, hne]

/-- C5 witness: the zero-signal hypothesis discharged at the empty
collection — the breakdown output is empty, so no division occurs. -/
theorem typeBreakdown_spec_witness :
    ([] : List Signal).length = 0 ∧ typeBreakdown [] = [] :=
  ⟨rfl, (typeBreakdown_spec []).1 rfl⟩

/-- C6: the merged notification feed is the alerts, exactly the active
events, and the system notices (the definitional composition of
`allNotifications`), sorted non-increasing by timestamp and truncated to at
most 20 entries; the output is a sub-permutation of the merged collection,
so nothing outside those three groups ever appears. -/
theorem loadNotifications_spec (alerts : List Alert) (events : List Event) (now : ℤ) :
    (loadNotifications alerts events now).length ≤ 20 ∧
    List.Pairwise (fun a b : Notification => b.timestamp ≤ a.timestamp)
      (loadNotifications alerts events now) ∧
    List.Subperm (loadNotifications alerts events now)
      (allNotifications alerts events now) ∧
    allNotifications alerts events now
      = alerts.map alertNotification
          ++ (events.filter (fun e => e.status = "active")).map eventNotification
          ++ systemNotifications now := by
  haveI : IsTotal Notification (fun a b => b.timestamp ≤ a.timestamp) :=
    ⟨fun a b => le_total b.timestamp a.timestamp⟩
  haveI : IsTrans Notification (fun a b => b.timestamp ≤ a.timestamp) :=
    ⟨fun _ _ _ h h2 => h2.trans h⟩
  refine ⟨List.length_take_le 20 _, ?_, ?_, rfl⟩
  · exact List.Pairwise.sublist (List.take_sublist 20 _)
      (List.sorted_insertionSort _ _)
  · exact (List.Sublist.subperm (List.take_sublist 20 _)).trans
      (List.Perm.subperm (List.perm_insertionSort _ _))

/-- A batch of 21 unread alerts used to drive the merge past the
20-entry truncation. -/
def manyAlerts : List Alert :=
  (List.range 21).map (fun i => Alert.mk (toString i) "Alert" "Mumbai" Severity.low (i : ℤ))

/-- C7 counterexample: with 21 alerts the merge produces 22 unread
notifications (21 alerts plus the system notice), yet the unread count
computed by the component is 20, because it counts over the stored,
already-truncated list — not over the full untruncated-at-merge set. -/
theorem unreadCount_not_over_full_merge :
    unreadCount (loadNotifications manyAlerts [] 0) = 20 ∧
    ((allNotifications manyAlerts [] 0).filter (fun n => n.read = false)).length = 22 ∧
    unreadCount (loadNotifications manyAlerts [] 0)
      ≠ ((allNotifications manyAlerts [] 0).filter (fun n => n.read = false)).length := by
  refine ⟨by decide, by decide, by decide⟩

/-- C7 (amended): the unread count equals the number of unread
notifications in the stored, truncated feed; since every notification is
created unread at merge time, immediately after a merge it equals
`min 20 (size of the merged set)` rather than the full merged unread
count. -/
theorem unreadCount_over_truncated_set (alerts : List Alert) (events : List Event)
    (now : ℤ) :
    unreadCount (loadNotifications alerts events now)
      = (loadNotifications alerts events now).length ∧
    (loadNotifications alerts events now).length
      = min 20 (allNotifications alerts events now).length := by
  constructor
  · unfold unreadCount
    rw [List.filter_length_eq_length.mpr]
    intro n hn
    have hmem := (List.mem_insertionSort _).mp ((List.take_sublist 20 _).subset hn)
    simp only [allNotifications, systemNotifications, List.mem_append, List.mem_map,
      List.mem_singleton] at hmem
    rcases hmem with (⟨a, _, rfl⟩ | ⟨e, _, rfl⟩) | rfl
    · exact of_decide_eq_true rfl
    · exact of_decide_eq_true rfl
    · exact of_decide_eq_true rfl
  · simp [loadNotifications, List.length_take, List.length_insertionSort]

/-- Every window selector yields at least one day bucket. -/
theorem trendDays_pos (range : String) : 1 ≤ trendDays range := by
  unfold trendDays
  split_ifs <;> norm_num

/-- Counting with disjoint predicates splits a filtered length. -/
theorem length_filter_or {α : Type} (p q : α → Bool) (l : List α)
    (h : ∀ a, p a = true → q a = false) :
    (l.filter (fun a => p a || q a)).length
      = (l.filter p).length + (l.filter q).length := by
  induction l with
  | nil => rfl
  | cons a t ih =>
    by_cases hp : p a = true
    · have hq2 := h a hp
      simp [List.filter_cons, hp, hq2, ih]
      omega
    · have hp2 : p a = false := by simpa using hp
      by_cases hq : q a = true
      · simp [List.filter_cons, hp2, hq, ih]
        omega
      · have hq2 : q a = false := by simpa using hq
        simp [List.filter_cons, hp2, hq2, ih]

/-- Summing per-day counts over a duplicate-free day list counts the
signals whose day lies in the list. -/
theorem sum_length_filter_eq_length_filter_mem (signals : List Signal) :
    ∀ ds : List ℤ, ds.Nodup →
      (ds.map (fun d => (signals.filter (fun s => s.day = d)).length)).sum
        = (signals.filter (fun s => s.day ∈ ds)).length := by
  intro ds
  induction ds with
  | nil => intro _; simp
  | cons d t ih =>
    intro hnd
    rcases List.nodup_cons.mp hnd with ⟨hd, hndt⟩
    rw [List.map_cons, List.sum_cons, ih hndt]
    have hcong : (signals.filter (fun s => s.day ∈ d :: t))
        = signals.filter (fun s => (decide (s.day = d) || decide (s.day ∈ t))) := by
      apply List.filter_congr
      intro s _
      simp [List.mem_cons]
    have hdisj : ∀ s : Signal, decide (s.day = d) = true → decide (s.day ∈ t) = false :=
      fun s hs => decide_eq_false (fun hmem => hd (of_decide_eq_true hs ▸ hmem))
    rw [hcong, length_filter_or (fun s => decide (s.day = d))
      (fun s => decide (s.day ∈ t)) signals hdisj]

/-- C3: for every window selector the trend series has exactly
`trendDays range` buckets (1, 7, 30 for `'1d'`, `'7d'`, `'30d'`), whose
dates run oldest to newest from day offset `window - 1` down to `0`, and
the bucket totals sum to the number of signals whose day falls in the
window; signals outside the window are simply not counted. -/
theorem generateSignalTrends_spec (anomaly : ℤ → ℚ) (signals : List Signal)
    (range : String) (today : ℤ) :
    (generateSignalTrends anomaly signals range today).length = trendDays range ∧
    (generateSignalTrends anomaly signals range today).map (fun b => b.date)
      = (List.range (trendDays range)).map
          (fun j : ℕ => today - ((trendDays range - 1 : ℕ) : ℤ) + (j : ℤ)) ∧
    ((generateSignalTrends anomaly signals range today).map (fun b => b.signals)).sum
      = (signals.filter
          (fun s => today - (trendDays range : ℤ) < s.day ∧ s.day ≤ today)).length ∧
    trendDays "1d" = 1 ∧ trendDays "7d" = 7 ∧ trendDays "30d" = 30 := by
  have hpos : 1 ≤ trendDays range := trendDays_pos range
  refine ⟨?_, ?_, ?_, by decide, by decide, by decide⟩
  · simp [generateSignalTrends]
  · simp only [generateSignalTrends, List.map_map]
    apply List.map_congr_left
    intro j hj
    have hj2 : j < trendDays range := List.mem_range.mp hj
    show today - ((trendDays range - 1 - j : ℕ) : ℤ)
        = today - ((trendDays range - 1 : ℕ) : ℤ) + (j : ℤ)
    omega
  · have h1 : (generateSignalTrends anomaly signals range today).map (fun b => b.signals)
        = (List.range (trendDays range)).map
            (fun j => (signals.filter
              (fun s => s.day = today - ((trendDays range - 1 - j : ℕ) : ℤ))).length) := by
      simp only [generateSignalTrends, List.map_map]
      rfl
    have h2 : (List.range (trendDays range)).map
        (fun j => (signals.filter
          (fun s => s.day = today - ((trendDays range - 1 - j : ℕ) : ℤ))).length)
        = ((List.range (trendDays range)).map
            (fun j => today - ((trendDays range - 1 - j : ℕ) : ℤ))).map
            (fun d => (signals.filter (fun s => s.day = d)).length) := by
      rw [List.map_map]
      rfl
    have hnd : ((List.range (trendDays range)).map
        (fun j => today - ((trendDays range - 1 - j : ℕ) : ℤ))).Nodup := by
      apply List.Nodup.map_on ?_ (List.nodup_range _)
      intro x hx y hy hxy
      have hx2 := List.mem_range.mp hx
      have hy2 := List.mem_range.mp hy
      omega
    rw [h1, h2, sum_length_filter_eq_length_filter_mem signals _ hnd]
    apply congrArg List.length
    apply List.filter_congr
    intro s _
    rw [decide_eq_decide]
    constructor
    · intro hmem
      rcases List.mem_map.mp hmem with ⟨j, hj, hEq⟩
      have hj2 := List.mem_range.mp hj
      omega
    · intro hw
      apply List.mem_map.mpr
      refine ⟨trendDays range - 1 - (today - s.day).toNat, List.mem_range.mpr ?_, ?_⟩
      · omega
      · omega
